import Mathlib

/-!
Verification development for the AI city-builder core
(`src/scripts/ai/request-engine.ts`, `src/scripts/sim/buildings/building.js`,
`src/scripts/config.js`).

The TypeScript/JavaScript sources are shallowly embedded: counters are `Nat`,
JS number subtraction is `Int` subtraction, fractional thresholds and
recovery progress are exact rationals (`ℚ`), and the mutable engine objects
become explicit state records with step functions.  Random draws, timer
firings and external callbacks are oracle parameters of the step functions.
Presentation-only data (human-readable Japanese message strings, random
citizen names, request ids, wall-clock timestamps) is omitted from the
records where it provably does not influence control flow.
-/

namespace CityBuilder

/-! ## City snapshots (`request-engine.ts`, interface `CitySnapshot`) -/

/-- Aggregate snapshot of the city grid, as captured by
`RequestEngine.captureSnapshot`.  All fields are tile/citizen counts. -/
structure CitySnapshot where
  unpoweredCount : Nat
  residentialCapacity : Nat
  population : Nat
  totalResidents : Nat
  employed : Nat
  commercialCount : Nat
  industrialCount : Nat
  residentialCount : Nat
  powerPlantCount : Nat
  powerLineCount : Nat
  roadCount : Nat
  noRoadAccess : Nat
deriving DecidableEq

/-! ## Problem detection (`RequestEngine.detectProblems`, state-machine engine) -/

/-- `RequestEngine.detectProblems` of the single-slot state-machine engine:
pushes the category strings in program order, with the thresholds of the
source (`0.8` and `0.3` are exact rationals here; JS `-` on counts is `Int`
subtraction). -/
def detectProblems (s : CitySnapshot) : List String :=
  (if 0 < s.population ∧ (s.population : ℚ) > (s.residentialCapacity : ℚ) * (8/10)
    then ["housing"] else []) ++
  (if 0 < s.totalResidents ∧ 0 < (s.totalResidents : ℤ) - (s.employed : ℤ) ∧
      s.commercialCount + s.industrialCount < s.residentialCount
    then ["jobs"] else []) ++
  (if 0 < s.unpoweredCount then ["power"] else []) ++
  (if 0 < s.noRoadAccess then ["road"] else []) ++
  (if 0 < s.residentialCount ∧ (s.commercialCount : ℚ) < (s.residentialCount : ℚ) * (3/10)
    then ["commerce"] else [])

/-! ## Request records and engine phases (state-machine engine) -/

/-- Status of a citizen request (`'active' | 'fulfilled' | 'expired'`). -/
inductive RequestStatus where
  | active
  | fulfilled
  | expired
deriving DecidableEq

/-- The five request categories. -/
inductive RequestType where
  | housing
  | jobs
  | power
  | road
  | commerce
deriving DecidableEq

/-- A citizen request of the single-slot engine.  The source record also
carries `id`, `citizenName`, `message` and `createdAt`; those are random
identifiers / display strings / timestamps that no engine branch inspects,
so they are omitted from the embedding. -/
structure CitizenRequest where
  type : RequestType
  status : RequestStatus
deriving DecidableEq

/-- `EnginePhase` of the state-machine engine. -/
inductive EnginePhase where
  | idle
  | request_active
  | settling
  | evaluating
deriving DecidableEq

/-! ## `checkRequestStatus` (`request-engine.ts` lines 460-544) -/

/-- Result of `checkRequestStatus`; the advisory strings `detail` and
`suggestion` are presentation-only and omitted. -/
structure CheckStatusResult where
  resolved : Bool
  request : Option CitizenRequest
deriving DecidableEq

/-- The per-category "ideal" criterion of `checkRequestStatus`: the
underlying deficiency is fully gone in the snapshot captured at call time. -/
def idealCondition : RequestType → CitySnapshot → Bool
  | .housing, now => decide (now.population = 0 ∨ now.residentialCapacity ≥ now.population)
  | .jobs, now => decide (now.commercialCount + now.industrialCount ≥ now.residentialCount)
  | .power, now => decide (now.unpoweredCount = 0)
  | .road, now => decide (now.noRoadAccess = 0)
  | .commerce, now =>
      decide ((now.commercialCount : ℚ) ≥ (now.residentialCount : ℚ) * (3/10))

/-- The per-category "progress" criterion of `checkRequestStatus`:
directional improvement of the captured snapshot versus `snapshotBefore`. -/
def progressCondition : RequestType → CitySnapshot → CitySnapshot → Bool
  | .housing, before, now => decide (now.residentialCapacity > before.residentialCapacity)
  | .jobs, before, now =>
      decide (now.commercialCount + now.industrialCount >
        before.commercialCount + before.industrialCount)
  | .power, before, now =>
      decide (now.powerPlantCount > before.powerPlantCount ∨
        now.powerLineCount > before.powerLineCount)
  | .road, before, now => decide (now.roadCount > before.roadCount)
  | .commerce, before, now => decide (now.commercialCount > before.commercialCount)

/-- `RequestEngine.checkRequestStatus`, as a function of the engine fields it
reads (`phase`, `currentRequest`, `snapshotBefore`) and of the snapshot
captured at call time.  Each case computes `resolved = ideal || progress`
with the source's inline conditions. -/
def checkRequestStatus (phase : EnginePhase) (currentRequest : Option CitizenRequest)
    (snapshotBefore : Option CitySnapshot) (now : CitySnapshot) : CheckStatusResult :=
  match currentRequest, phase with
  | some req, .request_active =>
    let resolved : Bool :=
      match req.type with
      | .housing =>
          (decide (now.population = 0 ∨ now.residentialCapacity ≥ now.population)) ||
          (match snapshotBefore with
            | some b => decide (now.residentialCapacity > b.residentialCapacity)
            | none => false)
      | .jobs =>
          (decide (now.commercialCount + now.industrialCount ≥ now.residentialCount)) ||
          (match snapshotBefore with
            | some b => decide (now.commercialCount + now.industrialCount >
                b.commercialCount + b.industrialCount)
            | none => false)
      | .power =>
          (decide (now.unpoweredCount = 0)) ||
          (match snapshotBefore with
            | some b => decide (now.powerPlantCount > b.powerPlantCount ∨
                now.powerLineCount > b.powerLineCount)
            | none => false)
      | .road =>
          (decide (now.noRoadAccess = 0)) ||
          (match snapshotBefore with
            | some b => decide (now.roadCount > b.roadCount)
            | none => false)
      | .commerce =>
          (decide ((now.commercialCount : ℚ) ≥ (now.residentialCount : ℚ) * (3/10))) ||
          (match snapshotBefore with
            | some b => decide (now.commercialCount > b.commercialCount)
            | none => false)
    { resolved := resolved, request := some req }
  | _, _ => { resolved := false, request := none }

/-! ## Happiness delta (`RequestEngine.computeHappinessDelta` and `evaluate`) -/

/-- The per-category remediation signal of the spec: did the quantity the
request asked about improve between the before/after snapshots? -/
def remediationSignalImproved (ty : RequestType) (before after : CitySnapshot) : Bool :=
  match ty with
  | .housing => decide (after.residentialCapacity > before.residentialCapacity)
  | .jobs => decide (after.commercialCount + after.industrialCount >
      before.commercialCount + before.industrialCount)
  | .power => decide (after.powerPlantCount > before.powerPlantCount ∨
      after.powerLineCount > before.powerLineCount ∨
      after.unpoweredCount < before.unpoweredCount)
  | .road => decide (after.roadCount > before.roadCount ∨
      after.noRoadAccess < before.noRoadAccess)
  | .commerce => decide (after.commercialCount > before.commercialCount)

/-- `RequestEngine.computeHappinessDelta`: the switch of the source, with the
inline comparison of each case. -/
def computeHappinessDelta (ty : RequestType) (before after : CitySnapshot) : ℤ :=
  match ty with
  | .housing => if after.residentialCapacity > before.residentialCapacity then 10 else -2
  | .jobs =>
      if after.commercialCount + after.industrialCount >
          before.commercialCount + before.industrialCount then 10 else -2
  | .power =>
      if after.powerPlantCount > before.powerPlantCount ∨
          after.powerLineCount > before.powerLineCount ∨
          after.unpoweredCount < before.unpoweredCount then 10 else -2
  | .road =>
      if after.roadCount > before.roadCount ∨
          after.noRoadAccess < before.noRoadAccess then 10 else -2
  | .commerce => if after.commercialCount > before.commercialCount then 10 else -2

/-- The happiness write of `RequestEngine.evaluate`:
`Math.max(0, Math.min(100, happiness + delta))`, over an arbitrary prior
happiness value `h`. -/
def applyHappinessDelta (h : ℚ) (delta : ℤ) : ℚ :=
  max 0 (min 100 (h + (delta : ℚ)))

/-! ## Adaptive cooldown (`RequestEngine.computeNextCooldown`) -/

/-- `RequestEngine.computeNextCooldown`, parametrised by the values the
source reads: the snapshot population, the city happiness (`?? 50` folded
into the argument), the number of detected problems and the `Math.random()`
draw.  All amounts are milliseconds as exact rationals. -/
def computeNextCooldown (population : Nat) (happiness : ℚ) (problemCount : Nat)
    (rand : ℚ) : ℚ :=
  let cooldown : ℚ := 25000
  let cooldown := cooldown - ((100 - happiness) / 100) * 8000
  let cooldown := cooldown - min ((problemCount : ℚ) * 2000) 10000
  let cooldown := cooldown - min ((population : ℚ) * 170) 5000
  let cooldown := cooldown + (rand - 1/2) * 8000
  max 8000 (min 40000 cooldown)

/-! ## Speech coordinator (`request-engine.ts` lines 805-857)

The module-level flags `mayorSpeaking`/`citizenSpeaking` and the `waiters`
array become a state record; a queued `resolve` callback is identified by a
natural number.  Each operation returns the new state together with the list
of waiter ids it resolves (in resolution order). -/

/-- State of the speech coordinator: the two speaking flags and the FIFO
queue of pending `waitForSilence` resolvers. -/
structure SpeechState where
  mayorSpeaking : Bool
  citizenSpeaking : Bool
  waiters : List Nat
deriving DecidableEq

/-- `flushWaiters`: if either producer is still speaking, nothing happens;
otherwise every queued waiter is resolved and the queue is emptied. -/
def flushWaiters (s : SpeechState) : SpeechState × List Nat :=
  if s.mayorSpeaking ∨ s.citizenSpeaking then (s, [])
  else ({ s with waiters := [] }, s.waiters)

/-- `setMayorSpeaking`. -/
def setMayorSpeaking (b : Bool) (s : SpeechState) : SpeechState × List Nat :=
  let s := { s with mayorSpeaking := b }
  if b then (s, []) else flushWaiters s

/-- `setCitizenSpeaking`. -/
def setCitizenSpeaking (b : Bool) (s : SpeechState) : SpeechState × List Nat :=
  let s := { s with citizenSpeaking := b }
  if b then (s, []) else flushWaiters s

/-- `waitForSilence` for a fresh waiter `id`: resolves immediately when both
flags are clear, otherwise appends the waiter to the queue (its 10 s
failsafe timer firing is modelled by `failsafeFire id`). -/
def waitForSilence (id : Nat) (s : SpeechState) : SpeechState × List Nat :=
  if s.mayorSpeaking = false ∧ s.citizenSpeaking = false then (s, [id])
  else ({ s with waiters := s.waiters ++ [id] }, [])

/-- The body of the 10 s failsafe `setTimeout` inside `waitForSilence`: if
waiter `id` is still queued, it is removed from the queue, both flags are
forced to `false`, and that one waiter's promise is resolved. -/
def failsafeFire (id : Nat) (s : SpeechState) : SpeechState × List Nat :=
  if id ∈ s.waiters then
    ({ mayorSpeaking := false, citizenSpeaking := false,
       waiters := s.waiters.erase id }, [id])
  else (s, [])

/-! ## Single-slot engine state machine (`request-engine.ts` lines 314-804)

The engine's mutable fields become an explicit record.  The source's
`currentRequest` aliases an element of the `requests` array, so it is
embedded as an index into that list.  Wall-clock fields (`lastIdleTime`,
`nextCooldownMs`) and the city happiness only feed timing/notification
side effects, not the request bookkeeping, so the tick event carries a
`gen` oracle saying whether `tryGenerateRequest` passed its cooldown,
problem-detection and random-choice gates, and with which category and
captured snapshot. -/

/-- State of the single-slot `RequestEngine`. -/
structure EngineState where
  phase : EnginePhase
  /-- Index into `requests` of the in-flight request (`currentRequest`). -/
  currentRequest : Option Nat
  /-- Every request ever created (`this.requests`). -/
  requests : List CitizenRequest
  snapshotBefore : Option CitySnapshot
  settleTicksRemaining : ℤ
  /-- Whether the 90 s expiry `setTimeout` is pending (`expiryTimeoutId`). -/
  expiryArmed : Bool
deriving DecidableEq

/-- The engine's initial state: fresh fields of the class body. -/
def initEngineState : EngineState :=
  { phase := .idle, currentRequest := none, requests := [],
    snapshotBefore := none, settleTicksRemaining := 0, expiryArmed := false }

/-- `SETTLE_TICKS`. -/
def SETTLE_TICKS : ℤ := 3

/-- Set the status of the request at index `i` (the effect of writing
through the `currentRequest` alias into the `requests` array). -/
def setStatusAt (l : List CitizenRequest) (i : Nat) (st : RequestStatus) :
    List CitizenRequest :=
  match l.get? i with
  | some r => l.set i { r with status := st }
  | none => l

/-- `tryGenerateRequest`, with the cooldown test, problem detection and
random category choice summarised by the `gen` oracle: `none` when any gate
fails (state unchanged), `some (ty, snap)` when a request of category `ty`
is created with `snap` as the captured before-snapshot. -/
def tryGenerateRequest (gen : Option (RequestType × CitySnapshot))
    (s : EngineState) : EngineState :=
  match gen with
  | none => s
  | some (ty, snap) =>
    { s with
      currentRequest := some s.requests.length,
      requests := s.requests ++ [{ type := ty, status := .active }],
      snapshotBefore := some snap,
      phase := .request_active,
      expiryArmed := true }

/-- `onCityChanged`: the per-tick driver of the state machine. -/
def onCityChanged (gen : Option (RequestType × CitySnapshot))
    (s : EngineState) : EngineState :=
  match s.phase with
  | .idle => tryGenerateRequest gen s
  | .settling =>
    let s := { s with settleTicksRemaining := s.settleTicksRemaining - 1 }
    if s.settleTicksRemaining ≤ 0 then { s with phase := .evaluating } else s
  | .request_active => s
  | .evaluating => s

/-- `markResolved`: ignored outside `request_active`; otherwise cancels the
expiry timer, marks the current request fulfilled and enters `settling`. -/
def markResolved (s : EngineState) : EngineState :=
  match s.phase, s.currentRequest with
  | .request_active, some i =>
    { s with
      requests := setStatusAt s.requests i .fulfilled,
      expiryArmed := false,
      phase := .settling,
      settleTicksRemaining := SETTLE_TICKS }
  | _, _ => s

/-- The body of the expiry `setTimeout` (`expireRequest`): fires only while
the timer is armed, and is itself a no-op unless the engine still sits in
`request_active` with a current request. -/
def expireRequest (s : EngineState) : EngineState :=
  if s.expiryArmed then
    match s.phase, s.currentRequest with
    | .request_active, some i =>
      { s with
        requests := setStatusAt s.requests i .expired,
        expiryArmed := false,
        currentRequest := none,
        snapshotBefore := none,
        phase := .idle }
    | _, _ => s
  else s

/-- Completion of the async `evaluate()` (everything after the happiness
write and notification: clearing the request and returning to idle).  The
`evaluating` guard reflects that `evaluate` is started exactly once, by the
settling tick that entered `evaluating`. -/
def evaluateFinish (s : EngineState) : EngineState :=
  if s.phase = .evaluating then
    { s with currentRequest := none, snapshotBefore := none, phase := .idle }
  else s

/-- The events the engine can experience, each carrying its oracle data. -/
inductive EngineEvent where
  | tick (gen : Option (RequestType × CitySnapshot))
  | markResolved
  | expiryFire
  | evaluateFinish

/-- One engine step. -/
def engineStep : EngineEvent → EngineState → EngineState
  | .tick gen, s => onCityChanged gen s
  | .markResolved, s => markResolved s
  | .expiryFire, s => expireRequest s
  | .evaluateFinish, s => evaluateFinish s

/-- States reachable from the fresh engine under any interleaving of ticks,
resolution calls, expiry firings and evaluation completions. -/
inductive EngineReachable : EngineState → Prop where
  | init : EngineReachable initEngineState
  | step (e : EngineEvent) {s : EngineState} :
      EngineReachable s → EngineReachable (engineStep e s)

/-- `r.status === 'active'` as a boolean predicate. -/
def isActiveReq (r : CitizenRequest) : Bool :=
  match r.status with
  | .active => true
  | _ => false

/-- `getActiveRequests`. -/
def getActiveRequests (s : EngineState) : List CitizenRequest :=
  s.requests.filter isActiveReq

/-! ## Disaster configuration (`config.js`, `config.disaster`) -/

/-- The `disaster` section of `config.js`. -/
structure DisasterConfig where
  minBuildingsForDisaster : Nat
  minTicksBetweenDisasters : ℤ
  disasterChance : ℚ
  minAffectedSize : Nat
  maxAffectedSize : Nat
  minRecoveryTicks : Nat
  maxRecoveryTicks : Nat
  activeRecoveryMultiplier : ℚ

/-- The shipped configuration values. -/
def disasterConfig : DisasterConfig :=
  { minBuildingsForDisaster := 8,
    minTicksBetweenDisasters := 60,
    disasterChance := mkRat 2 100,
    minAffectedSize := 2,
    maxAffectedSize := 3,
    minRecoveryTicks := 300,
    maxRecoveryTicks := 600,
    activeRecoveryMultiplier := 5 }

/-! ## The city grid as seen by `DisasterService`

`DisasterService` reads the city through `city.size`, `city.getTile(x,y)`
(`null` exactly outside `0 ≤ x,y < size`), the `building` field of a tile,
and `city.simTime`; it writes through `city.bulldoze` and per-tile damage
fields.  The per-tile damage fields are folded into the affected-tile
entries below (exactly the tiles the service ever reads them from). -/

/-- The city as observed by `DisasterService`. -/
structure CityGrid where
  size : Nat
  /-- Whether the tile at integer coordinates holds a building; only
  in-bounds coordinates are ever consulted. -/
  hasBuilding : ℤ → ℤ → Bool
  simTime : ℤ

/-- `city.getTile(x,y)` returns a tile exactly for in-bounds coordinates. -/
def tileExists (size : Nat) (x y : ℤ) : Bool :=
  decide (0 ≤ x ∧ x < (size : ℤ) ∧ 0 ≤ y ∧ y < (size : ℤ))

/-- Modelled from the spec: `City.bulldoze` lives in
`src/scripts/sim/city.js`, which is not among the sources; per the spec's
trigger step ("demolish any building") it removes the building from the
tile, leaving the tile empty. -/
def bulldoze (city : CityGrid) (x y : ℤ) : CityGrid :=
  { city with hasBuilding := fun a b =>
      if a = x ∧ b = y then false else city.hasBuilding a b }

/-- The integers from `a` to `b` inclusive (empty when `b < a`), the range
of a JS `for (let v = a; v <= b; v++)` loop. -/
def intRange (a b : ℤ) : List ℤ :=
  (List.range (b + 1 - a).toNat).map (fun k : Nat => a + (k : ℤ))

/-- Row-major grid coordinates `x, y ∈ [0, size)`, the iteration order of
the service's scanning loops. -/
def gridCoords (size : Nat) : List (ℤ × ℤ) :=
  (intRange 0 ((size : ℤ) - 1)).flatMap
    (fun x => (intRange 0 ((size : ℤ) - 1)).map (fun y => (x, y)))

/-- The building-count scan at the top of `tryTriggerDisaster`. -/
def buildingCount (city : CityGrid) : Nat :=
  (gridCoords city.size).countP (fun p => city.hasBuilding p.1 p.2)

/-- The `buildingTiles` scan of `tryTriggerDisaster`: coordinates of all
tiles holding a building, in row-major order. -/
def buildingTilesOf (city : CityGrid) : List (ℤ × ℤ) :=
  (gridCoords city.size).filter (fun p => city.hasBuilding p.1 p.2)

/-! ## Disaster state (`building.js`, `DisasterService`) -/

/-- An entry of `activeDisaster.affectedTiles` together with the damage
fields of the tile it references (`tile.damaged`, `tile.recoveryProgress`,
`tile.activeRecovery`). -/
structure AffectedEntry where
  x : ℤ
  y : ℤ
  totalRecoveryTicks : Nat
  recoveryProgress : ℚ
  activeRecovery : Bool
  damaged : Bool
deriving DecidableEq

/-- The `activeDisaster` record. -/
structure ActiveDisaster where
  epicenterX : ℤ
  epicenterY : ℤ
  affectedTiles : List AffectedEntry
deriving DecidableEq

/-- State of `DisasterService`; `lastDisasterTick = none` stands for the
initial `-Infinity`. -/
structure DisasterState where
  activeDisaster : Option ActiveDisaster
  lastDisasterTick : Option ℤ
deriving DecidableEq

/-- Fresh `DisasterService` state. -/
def initDisasterState : DisasterState :=
  { activeDisaster := none, lastDisasterTick := none }

/-- The summary passed to the notification callback on trigger. -/
structure DisasterSummary where
  epicenterX : ℤ
  epicenterY : ℤ
  affectedTileCount : Nat
  destroyedBuildingCount : Nat
deriving DecidableEq

/-- The inner double loop of `triggerDisaster` over the clipped extent:
skips missing tiles, bulldozes any building, marks the tile damaged with
fresh recovery progress, and records an affected entry whose total recovery
duration comes from the per-tile draw `recDraw` (the drawn value is reduced
modulo the size of the configured range, giving exactly the support of
`minRecoveryTicks + Math.floor(Math.random() * (max - min + 1))`).
Freshly triggered tiles have `activeRecovery = false`: tiles of a previous
disaster always leave its list through `clearDamageVisuals`, which resets
the flag. -/
def damageTiles (cfg : DisasterConfig) (recDraw : ℤ → ℤ → Nat) :
    CityGrid → List (ℤ × ℤ) → CityGrid × List AffectedEntry
  | city, [] => (city, [])
  | city, (x, y) :: rest =>
    if tileExists city.size x y then
      let city' := if city.hasBuilding x y then bulldoze city x y else city
      let entry : AffectedEntry :=
        { x := x, y := y,
          totalRecoveryTicks :=
            cfg.minRecoveryTicks +
              recDraw x y % (cfg.maxRecoveryTicks - cfg.minRecoveryTicks + 1),
          recoveryProgress := 0,
          activeRecovery := false,
          damaged := true }
      let res := damageTiles cfg recDraw city' rest
      (res.1, entry :: res.2)
    else damageTiles cfg recDraw city rest

/-- `DisasterService.triggerDisaster`: clips the extent around the
epicenter, damages every tile in it, records the active disaster and the
trigger tick, and emits exactly one summary whose `destroyedBuildingCount`
is `affectedTiles.filter(t => !t.tile.building).length`, evaluated on the
city as it stands after the demolition loop. -/
def triggerDisaster (cfg : DisasterConfig) (recDraw : ℤ → ℤ → Nat)
    (city : CityGrid) (epicenterX epicenterY : ℤ) (sizeX sizeY : Nat)
    (_st : DisasterState) : DisasterState × CityGrid × Option DisasterSummary :=
  let startX := max 0 (epicenterX - (sizeX / 2 : Nat))
  let startY := max 0 (epicenterY - (sizeY / 2 : Nat))
  let endX := min ((city.size : ℤ) - 1) (startX + (sizeX : ℤ) - 1)
  let endY := min ((city.size : ℤ) - 1) (startY + (sizeY : ℤ) - 1)
  let extent := (intRange startX endX).flatMap
    (fun x => (intRange startY endY).map (fun y => (x, y)))
  let res := damageTiles cfg recDraw city extent
  let cityAfter := res.1
  let affectedTiles := res.2
  let destroyedCount :=
    (affectedTiles.filter (fun e => !(cityAfter.hasBuilding e.x e.y))).length
  ({ activeDisaster := some
       { epicenterX := epicenterX, epicenterY := epicenterY,
         affectedTiles := affectedTiles },
     lastDisasterTick := some city.simTime },
   cityAfter,
   some { epicenterX := epicenterX, epicenterY := epicenterY,
          affectedTileCount := affectedTiles.length,
          destroyedBuildingCount := destroyedCount })

/-- The random draws `tryTriggerDisaster` consumes: the trigger Bernoulli
draw (`Math.random() > disasterChance` aborts), the epicenter pick and the
two extent-size draws (reduced to the index/size ranges the source's
`Math.floor(Math.random() * n)` expressions produce), and the per-tile
recovery-duration draws. -/
structure TriggerDraws where
  rand : ℚ
  pick : Nat
  sxDraw : Nat
  syDraw : Nat
  recDraw : ℤ → ℤ → Nat

/-- `DisasterService.tryTriggerDisaster`. -/
def tryTriggerDisaster (cfg : DisasterConfig) (d : TriggerDraws)
    (city : CityGrid) (st : DisasterState) :
    DisasterState × CityGrid × Option DisasterSummary :=
  if buildingCount city < cfg.minBuildingsForDisaster then (st, city, none)
  else if (match st.lastDisasterTick with
      | none => false
      | some t => decide (city.simTime - t < cfg.minTicksBetweenDisasters)) then
    (st, city, none)
  else if d.rand > cfg.disasterChance then (st, city, none)
  else
    let buildingTiles := buildingTilesOf city
    if h : buildingTiles = [] then (st, city, none)
    else
      let epicenter := buildingTiles.get
        ⟨d.pick % buildingTiles.length,
         Nat.mod_lt _ (List.length_pos.mpr h)⟩
      let sizeX := cfg.minAffectedSize +
        d.sxDraw % (cfg.maxAffectedSize - cfg.minAffectedSize + 1)
      let sizeY := cfg.minAffectedSize +
        d.syDraw % (cfg.maxAffectedSize - cfg.minAffectedSize + 1)
      triggerDisaster cfg d.recDraw city epicenter.1 epicenter.2 sizeX sizeY st

/-- The per-entry update of `advanceRecovery`: add `1/totalRecoveryTicks`,
times the acceleration multiplier when the tile is actively recovered, and
clamp the progress to `1`. -/
def updateEntry (cfg : DisasterConfig) (e : AffectedEntry) : AffectedEntry :=
  let increment : ℚ := mkRat 1 e.totalRecoveryTicks
  let increment := if e.activeRecovery then increment * cfg.activeRecoveryMultiplier
    else increment
  { e with recoveryProgress := min 1 (e.recoveryProgress + increment) }

/-- The clean-up applied to a tile whose progress reached `1`: damage
cleared, progress reset, active-recovery icon removed. -/
def finalizeEntry (e : AffectedEntry) : AffectedEntry :=
  { e with damaged := false, recoveryProgress := 0, activeRecovery := false }

/-- `DisasterService.advanceRecovery` on an active disaster: update every
entry, drop the entries that reached progress `1` (returning their final
tile states), and clear the disaster when the list empties. -/
def advanceRecovery (cfg : DisasterConfig) (ad : ActiveDisaster) :
    Option ActiveDisaster × List AffectedEntry :=
  let updated := ad.affectedTiles.map (updateEntry cfg)
  let remaining := updated.filter (fun e => !(decide (e.recoveryProgress ≥ 1)))
  let recovered := (updated.filter (fun e => decide (e.recoveryProgress ≥ 1))).map
    finalizeEntry
  if remaining = [] then (none, recovered)
  else (some { ad with affectedTiles := remaining }, recovered)

/-- `DisasterService.simulate`: trigger path while no disaster is active,
recovery path otherwise. -/
def disasterSimulate (cfg : DisasterConfig) (d : TriggerDraws)
    (city : CityGrid) (st : DisasterState) :
    DisasterState × CityGrid × Option DisasterSummary :=
  match st.activeDisaster with
  | none => tryTriggerDisaster cfg d city st
  | some ad =>
    ({ st with activeDisaster := (advanceRecovery cfg ad).1 }, city, none)

/-- States of `DisasterService` reachable by simulation steps, under
arbitrary evolution of the external city between steps. -/
inductive DisasterReachable (cfg : DisasterConfig) : DisasterState → Prop where
  | init : DisasterReachable cfg initDisasterState
  | step (d : TriggerDraws) (city : CityGrid) {st : DisasterState} :
      DisasterReachable cfg st →
      DisasterReachable cfg (disasterSimulate cfg d city st).1

/-- The read-only summary `getDisasterInfo`: the fields the claims are
about (`active`, the tile count, and the average recovery progress whose
divisor is the tile count).  Per-tile display data is omitted. -/
structure DisasterInfo where
  active : Bool
  affectedTileCount : Nat
  averageRecoveryProgress : ℚ
deriving DecidableEq

/-- `DisasterService.getDisasterInfo`. -/
def getDisasterInfo (st : DisasterState) : DisasterInfo :=
  match st.activeDisaster with
  | none => { active := false, affectedTileCount := 0, averageRecoveryProgress := 0 }
  | some ad =>
    let tiles := ad.affectedTiles
    { active := true,
      affectedTileCount := tiles.length,
      averageRecoveryProgress :=
        (tiles.foldl (fun sum t => sum + t.recoveryProgress) 0) / (tiles.length : ℚ) }

/-! ## Theorems -/

/-- Membership in an `if`-guarded singleton list. -/
lemma mem_ite_singleton {c : Prop} [Decidable c] (t x : String) :
    (x ∈ if c then [t] else []) ↔ c ∧ x = t := by
  split <;> simp_all

/-- **C8.** `detectProblems` is a pure function of the snapshot with exactly
the claimed firing conditions: `housing` fires iff `population > 0` and
`population > 0.8 × residentialCapacity`; `jobs` iff
`totalResidents − employed > 0` and
`commercialCount + industrialCount < residentialCount`; `power` iff
`unpoweredCount > 0`; `road` iff `noRoadAccess > 0`; `commerce` iff
`commercialCount < 0.3 × residentialCount` — for every snapshot. -/
theorem detectProblems_characterisation (s : CitySnapshot) :
    ("housing" ∈ detectProblems s ↔
      0 < s.population ∧ (s.population : ℚ) > (8/10) * (s.residentialCapacity : ℚ)) ∧
    ("jobs" ∈ detectProblems s ↔
      0 < (s.totalResidents : ℤ) - (s.employed : ℤ) ∧
      s.commercialCount + s.industrialCount < s.residentialCount) ∧
    ("power" ∈ detectProblems s ↔ 0 < s.unpoweredCount) ∧
    ("road" ∈ detectProblems s ↔ 0 < s.noRoadAccess) ∧
    ("commerce" ∈ detectProblems s ↔
      (s.commercialCount : ℚ) < (3/10) * (s.residentialCount : ℚ)) := by
  have hplus : ∀ x : String, x ∈ detectProblems s ↔
      ((0 < s.population ∧ (s.population : ℚ) > (s.residentialCapacity : ℚ) * (8/10)) ∧
        x = "housing") ∨
      ((0 < s.totalResidents ∧ 0 < (s.totalResidents : ℤ) - (s.employed : ℤ) ∧
        s.commercialCount + s.industrialCount < s.residentialCount) ∧ x = "jobs") ∨
      ((0 < s.unpoweredCount) ∧ x = "power") ∨
      ((0 < s.noRoadAccess) ∧ x = "road") ∨
      ((0 < s.residentialCount ∧
        (s.commercialCount : ℚ) < (s.residentialCount : ℚ) * (3/10)) ∧
        x = "commerce") := by
    intro x
    simp only [detectProblems, List.mem_append, mem_ite_singleton]
    tauto
  refine ⟨?_, ?_, ?_, ?_, ?_⟩
  · rw [hplus "housing"]
    constructor
    · rintro (⟨⟨h1, h2⟩, -⟩ | ⟨-, h⟩ | ⟨-, h⟩ | ⟨-, h⟩ | ⟨-, h⟩) <;>
        first
          | exact ⟨h1, by linarith [h2]⟩
          | exact absurd h (by decide)
    · rintro ⟨h1, h2⟩
      exact Or.inl ⟨⟨h1, by linarith [h2]⟩, rfl⟩
  · rw [hplus "jobs"]
    constructor
    · rintro (⟨-, h⟩ | ⟨⟨h1, h2, h3⟩, -⟩ | ⟨-, h⟩ | ⟨-, h⟩ | ⟨-, h⟩) <;>
        first
          | exact ⟨h2, h3⟩
          | exact absurd h (by decide)
    · rintro ⟨h2, h3⟩
      exact Or.inr (Or.inl ⟨⟨by omega, h2, h3⟩, rfl⟩)
  · rw [hplus "power"]
    constructor
    · rintro (⟨-, h⟩ | ⟨-, h⟩ | ⟨h1, -⟩ | ⟨-, h⟩ | ⟨-, h⟩) <;>
        first
          | exact h1
          | exact absurd h (by decide)
    · intro h1
      exact Or.inr (Or.inr (Or.inl ⟨h1, rfl⟩))
  · rw [hplus "road"]
    constructor
    · rintro (⟨-, h⟩ | ⟨-, h⟩ | ⟨-, h⟩ | ⟨h1, -⟩ | ⟨-, h⟩) <;>
        first
          | exact h1
          | exact absurd h (by decide)
    · intro h1
      exact Or.inr (Or.inr (Or.inr (Or.inl ⟨h1, rfl⟩)))
  · rw [hplus "commerce"]
    constructor
    · rintro (⟨-, h⟩ | ⟨-, h⟩ | ⟨-, h⟩ | ⟨-, h⟩ | ⟨⟨h1, h2⟩, -⟩) <;>
        first
          | exact (by linarith [h2] :
              (s.commercialCount : ℚ) < (3/10) * (s.residentialCount : ℚ))
          | exact absurd h (by decide)
    · intro h
      have hc : (0 : ℚ) ≤ (s.commercialCount : ℚ) := Nat.cast_nonneg _
      have hres : (0 : ℚ) < (s.residentialCount : ℚ) := by nlinarith
      exact Or.inr (Or.inr (Or.inr (Or.inr
        ⟨⟨by exact_mod_cast hres, by linarith⟩, rfl⟩)))

/-- The snapshot captured when the scenario's housing request is created:
`population = 50`, `residentialCapacity = 40`. -/
def scenarioBefore : CitySnapshot :=
  { unpoweredCount := 0, residentialCapacity := 40, population := 50,
    totalResidents := 0, employed := 0, commercialCount := 0,
    industrialCount := 0, residentialCount := 0, powerPlantCount := 0,
    powerLineCount := 0, roadCount := 0, noRoadAccess := 0 }

/-- The same city after residential capacity rose to `48`, population
unchanged. -/
def scenarioNow : CitySnapshot :=
  { scenarioBefore with residentialCapacity := 48 }

/-- **C2.** Whenever the engine sits in `request_active` with a current
request and a stored before-snapshot, a `resolved = true` answer of
`checkRequestStatus` implies that the category's ideal condition holds on
the snapshot captured at call time or its progress condition holds versus
`snapshotBefore`; and in the concrete scenario (housing request at
`population = 50`, `residentialCapacity = 40`, capacity later `48`) the
answer is `resolved = true` via the progress branch even though `48 < 50`
(`detectProblems` having flagged `housing` on the before-snapshot). -/
theorem checkRequestStatus_sound :
    (∀ (req : CitizenRequest) (b now : CitySnapshot),
      (checkRequestStatus .request_active (some req) (some b) now).resolved = true →
      idealCondition req.type now = true ∨ progressCondition req.type b now = true) ∧
    ((checkRequestStatus .request_active (some ⟨.housing, .active⟩)
        (some scenarioBefore) scenarioNow).resolved = true ∧
      idealCondition .housing scenarioNow = false ∧
      progressCondition .housing scenarioBefore scenarioNow = true ∧
      "housing" ∈ detectProblems scenarioBefore) := by
  constructor
  · rintro ⟨ty, st⟩ b now h
    cases ty <;>
      simpa [checkRequestStatus, idealCondition, progressCondition] using h
  · have hdp : detectProblems scenarioBefore = ["housing"] := by
      norm_num [detectProblems, scenarioBefore]
    exact ⟨by decide, by decide, by decide, by rw [hdp]; exact List.mem_singleton.mpr rfl⟩

/-- Witness for C2: at the concrete scenario the hypothesis of the first
conjunct is discharged by computation. -/
theorem checkRequestStatus_sound_witness :
    idealCondition .housing scenarioNow = true ∨
    progressCondition .housing scenarioBefore scenarioNow = true :=
  checkRequestStatus_sound.1 ⟨.housing, .active⟩ scenarioBefore scenarioNow (by decide)

/-- **C4.** For every category and every before/after snapshot pair the
happiness delta of the evaluating phase is exactly `+10` when the
category's remediation signal improved between the snapshots and exactly
`−2` otherwise, and the happiness value written to the city
(`max 0 (min 100 (h + delta))`) lies in `[0, 100]` for any prior
happiness `h`. -/
theorem computeHappinessDelta_spec (ty : RequestType) (before after : CitySnapshot) :
    (computeHappinessDelta ty before after =
      if remediationSignalImproved ty before after then 10 else -2) ∧
    (∀ h : ℚ,
      0 ≤ applyHappinessDelta h (computeHappinessDelta ty before after) ∧
      applyHappinessDelta h (computeHappinessDelta ty before after) ≤ 100) := by
  constructor
  · cases ty <;>
      simp only [computeHappinessDelta, remediationSignalImproved,
        Bool.if_true_left, decide_eq_true_eq]
  · intro h
    exact ⟨le_max_left 0 _, max_le (by norm_num) (min_le_left _ _)⟩

/-- **C9.** The adaptive cooldown — base 25 s minus the happiness,
problem-count and population rebates plus the jitter, clamped — always
lands in `[8000 ms, 40000 ms]`, for every happiness value, problem count,
population and jitter draw. -/
theorem computeNextCooldown_bounds (population : Nat) (happiness : ℚ)
    (problemCount : Nat) (rand : ℚ) :
    8000 ≤ computeNextCooldown population happiness problemCount rand ∧
    computeNextCooldown population happiness problemCount rand ≤ 40000 := by
  unfold computeNextCooldown
  exact ⟨le_max_left 8000 _, max_le (by norm_num) (min_le_left _ _)⟩

/-- The speech state reached from silence after the mayor starts speaking
and two `waitForSilence` calls queue up (waiters `1` then `2`). -/
def speechTwoWaiters : SpeechState :=
  (waitForSilence 2 (waitForSilence 1
    (setMayorSpeaking true ⟨false, false, []⟩).1).1).1

/-- **C3, counterexample.** At the explicit state with the mayor speaking
and waiters `1` and `2` queued by `waitForSilence`, the 10 s failsafe of
waiter `1` resolves only waiter `1`: waiter `2` — queued at that moment —
is not among the resolved waiters and remains queued, refuting the claim
that the failsafe releases all pending waiters. -/
theorem failsafeFire_not_flush_all :
    speechTwoWaiters.waiters = [1, 2] ∧
    (failsafeFire 1 speechTwoWaiters).2 = [1] ∧
    2 ∈ (failsafeFire 1 speechTwoWaiters).1.waiters ∧
    ¬(∀ id ∈ speechTwoWaiters.waiters, id ∈ (failsafeFire 1 speechTwoWaiters).2) := by
  decide

/-- **C3, amended.** When the 10 s failsafe of a `waitForSilence` call that
is still queued fires, both speaking flags are forced to `false` and
exactly the waiter whose timer fired is resolved and removed from the
queue; the remaining waiters stay queued (each is released by its own
failsafe timer or by the next flag-clearing flush). -/
theorem failsafeFire_spec (s : SpeechState) (id : Nat) (h : id ∈ s.waiters) :
    (failsafeFire id s).1.mayorSpeaking = false ∧
    (failsafeFire id s).1.citizenSpeaking = false ∧
    (failsafeFire id s).2 = [id] ∧
    (failsafeFire id s).1.waiters = s.waiters.erase id := by
  simp [failsafeFire, h]

/-- Witness for the amended C3 at the two-waiter state. -/
theorem failsafeFire_spec_witness :
    (failsafeFire 1 speechTwoWaiters).1.mayorSpeaking = false ∧
    (failsafeFire 1 speechTwoWaiters).1.citizenSpeaking = false ∧
    (failsafeFire 1 speechTwoWaiters).2 = [1] ∧
    (failsafeFire 1 speechTwoWaiters).1.waiters = speechTwoWaiters.waiters.erase 1 :=
  failsafeFire_spec speechTwoWaiters 1 (by decide)

/-- A list filters to at most one element under `p` when any two indices
satisfying `p` coincide. -/
lemma length_filter_le_one {α : Type} (p : α → Bool) :
    ∀ l : List α,
      (∀ i j (hi : i < l.length) (hj : j < l.length),
        p l[i] = true → p l[j] = true → i = j) →
      (l.filter p).length ≤ 1
  | [], _ => by simp
  | a :: l, h => by
    by_cases hpa : p a = true
    · have hnil : l.filter p = [] := by
        rw [List.filter_eq_nil_iff]
        intro x hx hpx
        obtain ⟨j, hj, rfl⟩ := List.getElem_of_mem hx
        have h0 := h 0 (j + 1) (by simp) (by simpa using Nat.succ_lt_succ hj)
          (by simpa using hpa) (by simpa using hpx)
        omega
      simp [List.filter_cons_of_pos hpa, hnil]
    · rw [List.filter_cons_of_neg (by simpa using hpa)]
      refine length_filter_le_one p l ?_
      intro i j hi hj h1 h2
      have := h (i + 1) (j + 1) (Nat.succ_lt_succ hi) (Nat.succ_lt_succ hj)
        (by simpa using h1) (by simpa using h2)
      omega

/-- `isActiveReq` tests for the `active` status. -/
lemma isActiveReq_iff (r : CitizenRequest) :
    isActiveReq r = true ↔ r.status = .active := by
  cases r with
  | mk ty st => cases st <;> simp [isActiveReq]

/-- The inductive invariant of the single-slot engine: any request in the
log that is still `active` is the one the `currentRequest` alias points at,
and the engine then sits in `request_active`. -/
def engineInv (s : EngineState) : Prop :=
  ∀ i (hi : i < s.requests.length), s.requests[i].status = .active →
    s.phase = .request_active ∧ s.currentRequest = some i

/-- Every engine step preserves the invariant. -/
lemma engineInv_step (e : EngineEvent) (s : EngineState) (h : engineInv s) :
    engineInv (engineStep e s) := by
  obtain ⟨ph, cur, reqs, snapB, stl, arm⟩ := s
  cases e with
  | tick gen =>
    cases ph with
    | idle =>
      cases gen with
      | none => exact h
      | some g =>
        obtain ⟨ty, snap⟩ := g
        intro i hi hact
        simp only [engineStep, onCityChanged, tryGenerateRequest,
          List.length_append, List.length_cons, List.length_nil] at hi hact ⊢
        by_cases hlt : i < reqs.length
        · rw [List.getElem_append_left hlt] at hact
          exact absurd (h i hlt hact).1 (by simp)
        · have hieq : i = reqs.length := by omega
          exact ⟨trivial, by rw [hieq]⟩
    | request_active => exact h
    | settling =>
      simp only [engineStep, onCityChanged]
      split <;> intro i hi hact <;> exact absurd (h i hi hact).1 (by simp)
    | evaluating => exact h
  | markResolved =>
    cases ph with
    | request_active =>
      cases cur with
      | none => exact h
      | some k =>
        rcases hk : reqs.get? k with _ | r
        · intro i hi hact
          simp only [engineStep, markResolved, setStatusAt, hk] at hi hact ⊢
          have h2 := (h i hi hact).2
          have hik : k = i := Option.some.inj h2
          have hklen := List.get?_eq_none.mp hk
          omega
        · intro i hi hact
          simp only [engineStep, markResolved, setStatusAt, hk,
            List.length_set] at hi hact ⊢
          by_cases hik : k = i
          · subst hik
            rw [List.getElem_set_self (by simpa using hi)] at hact
            exact absurd hact (by simp)
          · rw [List.getElem_set_ne hik] at hact
            exact absurd (Option.some.inj (h i hi hact).2) hik
    | idle => exact h
    | settling => exact h
    | evaluating => exact h
  | expiryFire =>
    cases arm with
    | false => exact h
    | true =>
      cases ph with
      | request_active =>
        cases cur with
        | none => exact h
        | some k =>
          rcases hk : reqs.get? k with _ | r
          · intro i hi hact
            simp only [engineStep, expireRequest, setStatusAt, hk,
              if_true] at hi hact ⊢
            have hik : k = i := Option.some.inj (h i hi hact).2
            have hklen := List.get?_eq_none.mp hk
            omega
          · intro i hi hact
            simp only [engineStep, expireRequest, setStatusAt, hk, if_true,
              List.length_set] at hi hact ⊢
            by_cases hik : k = i
            · subst hik
              rw [List.getElem_set_self (by simpa using hi)] at hact
              exact absurd hact (by simp)
            · rw [List.getElem_set_ne hik] at hact
              exact absurd (Option.some.inj (h i hi hact).2) hik
      | idle => exact h
      | settling => exact h
      | evaluating => exact h
  | evaluateFinish =>
    cases ph with
    | evaluating =>
      intro i hi hact
      simp only [engineStep, evaluateFinish] at hi hact ⊢
      exact absurd (h i hi hact).1 (by simp)
    | idle => exact h
    | request_active => exact h
    | settling => exact h

/-- Every reachable engine state satisfies the invariant. -/
lemma engineReachable_inv {s : EngineState} (hs : EngineReachable s) :
    engineInv s := by
  induction hs with
  | init => intro i hi hact; simp [initEngineState] at hi
  | step e _ ih => exact engineInv_step e _ ih

/-- **C1.** In every reachable state of the single-slot `RequestEngine` —
under any interleaving of ticks, `markResolved` calls, expiry firings and
evaluation completions — `getActiveRequests()` returns at most one element;
and a `markResolved()` call made while the phase is not `request_active`
leaves the engine state unchanged. -/
theorem engine_single_active_request :
    (∀ s : EngineState, EngineReachable s → (getActiveRequests s).length ≤ 1) ∧
    (∀ s : EngineState, s.phase ≠ .request_active → markResolved s = s) := by
  constructor
  · intro s hs
    have hinv := engineReachable_inv hs
    refine length_filter_le_one isActiveReq s.requests ?_
    intro i j hi hj hpi hpj
    have h1 := hinv i hi ((isActiveReq_iff _).mp hpi)
    have h2 := hinv j hj ((isActiveReq_iff _).mp hpj)
    exact Option.some.inj (h1.2.symm.trans h2.2)
  · intro s hph
    obtain ⟨ph, cur, reqs, snapB, stl, arm⟩ := s
    cases ph with
    | request_active => exact absurd rfl hph
    | idle => rfl
    | settling => rfl
    | evaluating => rfl

/-- Witness for C1: applied to the state reached by one generating tick
from the fresh engine, and to the fresh engine for the ignored-resolution
part. -/
theorem engine_single_active_request_witness :
    (getActiveRequests
      (engineStep (.tick (some (.housing, scenarioBefore))) initEngineState)).length ≤ 1 ∧
    markResolved initEngineState = initEngineState :=
  ⟨engine_single_active_request.1 _
      (EngineReachable.step (.tick (some (.housing, scenarioBefore)))
        EngineReachable.init),
   engine_single_active_request.2 initEngineState (by decide)⟩

/-- Membership in the inclusive integer range. -/
lemma mem_intRange {a b x : ℤ} : x ∈ intRange a b ↔ a ≤ x ∧ x ≤ b := by
  unfold intRange
  simp only [List.mem_map, List.mem_range]
  constructor
  · rintro ⟨k, hk, rfl⟩
    omega
  · rintro ⟨h1, h2⟩
    exact ⟨(x - a).toNat, by omega, by omega⟩

/-- Membership in the row-major grid coordinate list. -/
lemma mem_gridCoords {n : Nat} {p : ℤ × ℤ} :
    p ∈ gridCoords n ↔ 0 ≤ p.1 ∧ p.1 < (n : ℤ) ∧ 0 ≤ p.2 ∧ p.2 < (n : ℤ) := by
  obtain ⟨x, y⟩ := p
  unfold gridCoords
  simp only [List.mem_flatMap, List.mem_map, mem_intRange, Prod.mk.injEq]
  constructor
  · rintro ⟨a, ⟨ha1, ha2⟩, b, ⟨hb1, hb2⟩, rfl, rfl⟩
    omega
  · rintro ⟨h1, h2, h3, h4⟩
    exact ⟨x, ⟨h1, by omega⟩, y, ⟨h3, by omega⟩, rfl, rfl⟩

/-- The damage loop records an entry for every existing tile of the extent,
so the affected list is non-empty as soon as one in-bounds coordinate is in
the extent. -/
lemma damageTiles_ne_nil (cfg : DisasterConfig) (recDraw : ℤ → ℤ → Nat) :
    ∀ (coords : List (ℤ × ℤ)) (city : CityGrid) (x y : ℤ),
      (x, y) ∈ coords → tileExists city.size x y = true →
      (damageTiles cfg recDraw city coords).2 ≠ []
  | [], _, _, _, hmem, _ => by simp at hmem
  | (a, b) :: rest, city, x, y, hmem, hex => by
    by_cases hab : tileExists city.size a b = true
    · simp [damageTiles, hab]
    · rcases List.mem_cons.mp hmem with heq | hrest
      · rw [Prod.mk.injEq] at heq
        obtain ⟨rfl, rfl⟩ := heq
        exact absurd hex hab
      · simp only [damageTiles, hab, if_neg, Bool.false_eq_true, not_false_eq_true]
        simpa using damageTiles_ne_nil cfg recDraw rest city x y hrest hex

/-- A trigger whose epicenter is in bounds and whose sampled extent sizes
are at least `1` always records the epicenter tile, so the recorded
affected-tile list is non-empty. -/
lemma triggerDisaster_tiles_ne_nil (recDraw : ℤ → ℤ → Nat) (city : CityGrid)
    (ex ey : ℤ) (sx sy : Nat) (st : DisasterState) (ad : ActiveDisaster)
    (h0x : 0 ≤ ex) (hx : ex < (city.size : ℤ)) (h0y : 0 ≤ ey)
    (hy : ey < (city.size : ℤ)) (hsx : 1 ≤ sx) (hsy : 1 ≤ sy)
    (had : (triggerDisaster disasterConfig recDraw city ex ey sx sy st).1.activeDisaster =
      some ad) :
    ad.affectedTiles ≠ [] := by
  simp only [triggerDisaster, Option.some.injEq] at had
  rw [← had]
  apply damageTiles_ne_nil disasterConfig recDraw _ city ex ey
  · simp only [List.mem_flatMap, List.mem_map, mem_intRange, Prod.mk.injEq]
    have hdx : ((sx / 2 : Nat) : ℤ) ≤ (sx : ℤ) - 1 := by omega
    have hdy : ((sy / 2 : Nat) : ℤ) ≤ (sy : ℤ) - 1 := by omega
    refine ⟨ex, ⟨?_, ?_⟩, ey, ⟨?_, ?_⟩, rfl, rfl⟩ <;> omega
  · simp only [tileExists, decide_eq_true_eq]
    exact ⟨h0x, hx, h0y, hy⟩

/-- In every reachable `DisasterService` state an active disaster carries a
non-empty affected-tile list. -/
lemma disasterReachable_inv {st : DisasterState}
    (hst : DisasterReachable disasterConfig st) :
    ∀ ad, st.activeDisaster = some ad → ad.affectedTiles ≠ [] := by
  induction hst with
  | init =>
    intro ad had
    simp [initDisasterState] at had
  | step d city hpre ih =>
    rename_i st1
    intro ad had
    rcases hact : st1.activeDisaster with _ | ad0
    · simp only [disasterSimulate, hact, tryTriggerDisaster] at had
      split_ifs at had with hc1 hc2 hc3
      · rw [show (st1, city, (none : Option DisasterSummary)).1 = st1 from rfl,
          hact] at had
        exact absurd had (by simp)
      · rw [show (st1, city, (none : Option DisasterSummary)).1 = st1 from rfl,
          hact] at had
        exact absurd had (by simp)
      · rw [show (st1, city, (none : Option DisasterSummary)).1 = st1 from rfl,
          hact] at had
        exact absurd had (by simp)
      · next hbt =>
        rw [show (st1, city, (none : Option DisasterSummary)).1 = st1 from rfl,
          hact] at had
        exact absurd had (by simp)
      · next hbt =>
        have hmem := List.get_mem (buildingTilesOf city)
          (d.pick % (buildingTilesOf city).length)
          (Nat.mod_lt _ (List.length_pos.mpr hbt))
        have hgrid := (List.mem_filter.mp hmem).1
        have hb := mem_gridCoords.mp hgrid
        refine triggerDisaster_tiles_ne_nil d.recDraw city _ _ _ _ st1 ad
          hb.1 hb.2.1 hb.2.2.1 hb.2.2.2 ?_ ?_ had
        · simp only [disasterConfig]
          omega
        · simp only [disasterConfig]
          omega
    · simp only [disasterSimulate, hact, advanceRecovery] at had
      split at had
      · exact absurd had (by simp)
      · next hrem =>
        rw [Option.some.injEq] at had
        rw [← had]
        exact hrem

/-- **C6.** While no hazard is active, a simulation step never triggers a
hazard when the number of building-occupied tiles is below
`minBuildingsForDisaster`, regardless of the Bernoulli draw, the elapsed
ticks since the last hazard and every other random draw: the service state,
the city and the (absent) notification are all unchanged. -/
theorem no_disaster_below_building_threshold (d : TriggerDraws) (city : CityGrid)
    (st : DisasterState) (hnone : st.activeDisaster = none)
    (hcount : buildingCount city < disasterConfig.minBuildingsForDisaster) :
    disasterSimulate disasterConfig d city st = (st, city, none) := by
  simp only [disasterSimulate, hnone, tryTriggerDisaster, if_pos hcount]

/-- A city too small for hazards: a single empty tile. -/
def emptyCity : CityGrid :=
  { size := 1, hasBuilding := fun _ _ => false, simTime := 0 }

/-- Random draws that would trigger as soon as the guards pass (`rand = 0`
never exceeds the trigger probability). -/
def zeroDraws : TriggerDraws :=
  { rand := 0, pick := 0, sxDraw := 0, syDraw := 0, recDraw := fun _ _ => 0 }

/-- Witness for C6 on the empty one-tile city. -/
theorem no_disaster_below_building_threshold_witness :
    disasterSimulate disasterConfig zeroDraws emptyCity initDisasterState =
      (initDisasterState, emptyCity, none) :=
  no_disaster_below_building_threshold zeroDraws emptyCity initDisasterState
    rfl (by decide)

/-- A 3×3 city with eight buildings — every tile built except `(1,1)` —
so the trigger guards pass while the extent around epicenter `(0,0)`
contains the unbuilt tile `(1,1)`. -/
def eightBuildingCity : CityGrid :=
  { size := 3, hasBuilding := fun a b => decide (¬(a = 1 ∧ b = 1)), simTime := 0 }

/-- **C7 (code bug).** On the eight-building city a trigger step raises a
hazard over the `2 × 2` extent `{0,1} × {0,1}` (epicenter `(0,0)`), of
whose four tiles exactly three held a building at trigger time — yet the
single summary notification reports `destroyedBuildingCount = 4`: the
source counts `affectedTiles.filter(t => !t.tile.building)` only after the
demolition loop, when every affected tile is already building-free, so the
reported count always equals the affected-tile count instead of the number
of buildings destroyed. -/
theorem disaster_summary_overcounts_destroyed :
    ((disasterSimulate disasterConfig zeroDraws eightBuildingCity initDisasterState).2.2 =
      some { epicenterX := 0, epicenterY := 0, affectedTileCount := 4,
             destroyedBuildingCount := 4 }) ∧
    ((match (disasterSimulate disasterConfig zeroDraws eightBuildingCity
        initDisasterState).1.activeDisaster with
      | some ad =>
        (ad.affectedTiles.filter
          (fun e => eightBuildingCity.hasBuilding e.x e.y)).length
      | none => 0) = 3) := by
  decide

/-- **C10.** In every reachable state of `DisasterService`, an active
disaster has a non-empty affected-tile list, so `getDisasterInfo`'s
average-progress divisor (the affected-tile count) is non-zero whenever it
reports an active disaster. -/
theorem active_disaster_has_tiles :
    ∀ st : DisasterState, DisasterReachable disasterConfig st →
      ∀ ad : ActiveDisaster, st.activeDisaster = some ad →
        ad.affectedTiles ≠ [] ∧ (getDisasterInfo st).affectedTileCount ≠ 0 := by
  intro st hst ad had
  have h1 := disasterReachable_inv hst ad had
  refine ⟨h1, ?_⟩
  simp only [getDisasterInfo, had]
  intro h0
  exact h1 (List.length_eq_zero.mp h0)

/-- A fully built 3×3 city: nine buildings, enough to trigger. -/
def fullCity : CityGrid :=
  { size := 3, hasBuilding := fun _ _ => true, simTime := 0 }

/-- The service state after one triggering step on the full city. -/
def triggeredState : DisasterState :=
  (disasterSimulate disasterConfig zeroDraws fullCity initDisasterState).1

/-- The disaster recorded by that step: epicenter `(0,0)`, four affected
tiles, each with the minimal 300-tick recovery duration. -/
def triggeredDisaster : ActiveDisaster :=
  { epicenterX := 0, epicenterY := 0,
    affectedTiles :=
      [{ x := 0, y := 0, totalRecoveryTicks := 300, recoveryProgress := 0,
         activeRecovery := false, damaged := true },
       { x := 0, y := 1, totalRecoveryTicks := 300, recoveryProgress := 0,
         activeRecovery := false, damaged := true },
       { x := 1, y := 0, totalRecoveryTicks := 300, recoveryProgress := 0,
         activeRecovery := false, damaged := true },
       { x := 1, y := 1, totalRecoveryTicks := 300, recoveryProgress := 0,
         activeRecovery := false, damaged := true }] }

/-- Witness for C10 at the concrete post-trigger state. -/
theorem active_disaster_has_tiles_witness :
    triggeredDisaster.affectedTiles ≠ [] ∧
    (getDisasterInfo triggeredState).affectedTileCount ≠ 0 :=
  active_disaster_has_tiles triggeredState
    (DisasterReachable.step zeroDraws fullCity DisasterReachable.init)
    triggeredDisaster (by decide)

/-- An affected tile with a 300-tick total recovery duration whose active
recovery starts at tick 0. -/
def acceleratedEntry : AffectedEntry :=
  { x := 0, y := 0, totalRecoveryTicks := 300, recoveryProgress := 0,
    activeRecovery := true, damaged := true }

/-- One recovery tick of the service on an (optional) active disaster. -/
def recoveryStep (s : Option ActiveDisaster) : Option ActiveDisaster :=
  match s with
  | none => none
  | some ad => (advanceRecovery disasterConfig ad).1

/-- The hazard consisting of that single accelerated tile. -/
def acceleratedDisaster : ActiveDisaster :=
  { epicenterX := 0, epicenterY := 0, affectedTiles := [acceleratedEntry] }

/-- The accelerated tile as it stands after 59 recovery ticks. -/
def entryAt59 : AffectedEntry :=
  { acceleratedEntry with recoveryProgress := mkRat 59 60 }

/-- The hazard as it stands after 59 recovery ticks. -/
def disasterAt59 : ActiveDisaster :=
  { epicenterX := 0, epicenterY := 0, affectedTiles := [entryAt59] }

/-- The tile's final state once recovery completes: damage cleared,
progress reset, active-recovery icon removed. -/
def recoveredEntry : AffectedEntry :=
  { acceleratedEntry with
      recoveryProgress := 0, activeRecovery := false, damaged := false }

unseal Rat.add Rat.mul in
/-- **C5.** An affected tile with `totalRecoveryTicks = 300` under active
recovery from tick 0 (acceleration multiplier 5, each step adding `5/300`)
reaches progress `1` exactly at the 60th recovery tick: after 59 ticks it
is still damaged and listed at progress `59/60`; on the 60th tick its
updated progress is exactly `1`, its damage is cleared and it leaves the
affected-tile list, which empties and clears the hazard. -/
theorem accelerated_recovery_completes_at_60 :
    (recoveryStep^[59] (some acceleratedDisaster) = some disasterAt59) ∧
    ((updateEntry disasterConfig entryAt59).recoveryProgress = 1) ∧
    (advanceRecovery disasterConfig disasterAt59 = (none, [recoveredEntry])) ∧
    (recoveryStep^[60] (some acceleratedDisaster) = none) := by
  decide

end CityBuilder
